import Mathlib

/-!
Verification of the Werewolf game engine: a shallow embedding of the
engine core (state model, night-action resolver, victory checker,
view/briefing filtering, vote tallying, phase transitions) together with
theorems settling the specification's claims about it.

Python dictionaries are modelled as association lists (insertion order
preserved, as in CPython), Python sets as ordered duplicate-free lists
(only membership is ever relevant), and the `random.choice` tie-breaks
are modelled by an explicit `pick : Nat` index into the list of tied
candidates, which makes the resolver and the vote tally pure functions
of their inputs plus the tie-break seed.
-/

namespace Wolf

/-- Game phases in order of progression (engine/phase.py). -/
inductive Phase
  | SETUP
  | NIGHT
  | DAWN
  | DAY_DISCUSSION
  | DAY_VOTE
  | DAY_VOTE_RESULT
  | GAME_OVER
deriving DecidableEq, Repr

/-- Immutable record for one player in the game (engine/state.py, PlayerSlot). -/
structure PlayerSlot where
  player_id : String
  name : String
  role : String
  team : String
  is_alive : Bool := true
  metadata : List (String × String) := []
deriving DecidableEq, Repr

/-- Game event hierarchy (engine/events.py), modelled as a sum type.
Python's `NightResultEvent.protected` field is called `protectedIds`
here because `protected` is a Lean keyword. -/
inductive GameEvent
  | phaseChange (day : Nat) (phase : Phase) (old_phase : Phase) (new_phase : Phase)
  | speech (day : Nat) (phase : Phase) (player_id : String) (content : String) (channel : String)
  | vote (day : Nat) (phase : Phase) (voter_id : String) (target_id : Option String)
  | voteResult (day : Nat) (phase : Phase) (tally : List (String × Nat))
      (eliminated_id : Option String) (tie : Bool)
  | elimination (day : Nat) (phase : Phase) (player_id : String) (role : String) (cause : String)
  | abilityUse (day : Nat) (phase : Phase) (player_id : String) (ability : String) (target_id : String)
  | privateReveal (day : Nat) (phase : Phase) (player_id : String) (info : String)
  | nightResult (day : Nat) (phase : Phase) (kills : List String)
      (protectedIds : List String) (saved : List String)
  | gameEnd (day : Nat) (phase : Phase) (winning_team : String) (winners : List String) (reason : String)
deriving DecidableEq, Repr

/-- Actions submitted by agents (engine/actions.py). -/
inductive Action
  | speak (player_id : String) (content : String)
  | voteFor (player_id : String) (target_id : Option String)
  | useAbility (player_id : String) (ability_name : String) (target_id : String)
  | noAction (player_id : String) (reason : String)
deriving DecidableEq, Repr

/-- Immutable snapshot of the entire game state (engine/state.py, GameState).
`night_actions` is a Python dict keyed by player id, modelled as an
association list in insertion order. -/
structure GameState where
  day : Nat := 0
  phase : Phase := Phase.SETUP
  players : List PlayerSlot := []
  events : List GameEvent := []
  night_actions : List (String × Action) := []
deriving DecidableEq, Repr

/-- GameState.get_player: first player with the given id, or none. -/
def GameState.get_player (s : GameState) (pid : String) : Option PlayerSlot :=
  s.players.find? (fun p => p.player_id == pid)

/-- GameState.get_alive_players: all living players, in roster order. -/
def GameState.get_alive_players (s : GameState) : List PlayerSlot :=
  s.players.filter (fun p => p.is_alive)

/-- GameState.get_players_by_team: all players (alive or dead) on a team. -/
def GameState.get_players_by_team (s : GameState) (team : String) : List PlayerSlot :=
  s.players.filter (fun p => p.team == team)

/-- GameState.with_phase: copy with a new phase. -/
def GameState.with_phase (s : GameState) (phase : Phase) : GameState :=
  { s with phase := phase }

/-- GameState.with_day: copy with a new day counter. -/
def GameState.with_day (s : GameState) (day : Nat) : GameState :=
  { s with day := day }

/-- GameState.with_player_killed: copy where the given player is marked dead. -/
def GameState.with_player_killed (s : GameState) (pid : String) : GameState :=
  { s with players :=
      s.players.map (fun p => if p.player_id == pid then { p with is_alive := false } else p) }

/-- Overwrite-or-append update of an association list, matching Python's
`dict[key] = value` (an existing key keeps its position). -/
def setAssoc (m : List (String × Action)) (k : String) (v : Action) : List (String × Action) :=
  match m with
  | [] => [(k, v)]
  | kv :: rest => if kv.1 == k then (k, v) :: rest else kv :: setAssoc rest k v

/-- GameState.with_night_action: copy with an additional night action recorded. -/
def GameState.with_night_action (s : GameState) (pid : String) (a : Action) : GameState :=
  { s with night_actions := setAssoc s.night_actions pid a }

/-- GameState.with_event: copy with the event appended to the log. -/
def GameState.with_event (s : GameState) (e : GameEvent) : GameState :=
  { s with events := s.events ++ [e] }

/-- GameState.clear_night_actions: copy with an empty night_actions dict. -/
def GameState.clear_night_actions (s : GameState) : GameState :=
  { s with night_actions := [] }

/-- One role ability (roles/base.py, AbilityDefinition). -/
structure AbilityDefinition where
  name : String
  phase : Phase
  priority : Nat
deriving DecidableEq, Repr

/-- A role: name, team and abilities (roles/base.py, RoleBase). -/
structure RoleBase where
  name : String
  team : String
  abilities : List AbilityDefinition
deriving DecidableEq, Repr

/-- A role registry: role-name lookup (roles/registry.py). -/
def Registry : Type := String → Option RoleBase

/-- resolver._get_ability_priority: priority of the named ability, with the
role possibly missing from the registry; falls back to 50. -/
def get_ability_priority (role : Option RoleBase) (ability_name : String) : Nat :=
  match role with
  | none => 50
  | some r =>
    match r.abilities.find? (fun a => a.name == ability_name) with
    | some a => a.priority
    | none => 50

/-- The built-in classic role set (roles/classic): doctor protect at
priority 10, werewolf kill at 15, seer investigate at 20, villager none. -/
def classicRegistry : Registry := fun n =>
  if n == "werewolf" then some ⟨"werewolf", "werewolf", [⟨"kill", Phase.NIGHT, 15⟩]⟩
  else if n == "doctor" then some ⟨"doctor", "village", [⟨"protect", Phase.NIGHT, 10⟩]⟩
  else if n == "seer" then some ⟨"seer", "village", [⟨"investigate", Phase.NIGHT, 20⟩]⟩
  else if n == "villager" then some ⟨"villager", "village", []⟩
  else none

/-- A single resolved night action with its priority (resolver.NightAction). -/
structure NightAction where
  player_id : String
  ability : String
  target_id : String
  priority : Nat
deriving DecidableEq, Repr

/-- Step 1 of resolve_night: build the NightAction list from the submitted
night actions, keeping only UseAbilityAction entries whose submitter is a
known player, with the priority looked up in the registry. -/
def collectNightActions (reg : Registry) (state : GameState) : List NightAction :=
  state.night_actions.filterMap (fun pa =>
    match pa.2 with
    | Action.useAbility _ ability target =>
      match state.get_player pa.1 with
      | some p => some ⟨pa.1, ability, target, get_ability_priority (reg p.role) ability⟩
      | none => none
    | _ => none)

/-- Insert an action after all actions of lower-or-equal priority, the
insertion step of a stable ascending sort (Python's list.sort is stable). -/
def insertByPriority (x : NightAction) : List NightAction → List NightAction
  | [] => [x]
  | y :: rest => if y.priority ≤ x.priority then y :: insertByPriority x rest else x :: y :: rest

/-- Stable sort of night actions by ascending priority. -/
def sortNightActions (l : List NightAction) : List NightAction :=
  l.foldl (fun acc x => insertByPriority x acc) []

/-- Step 2 of resolve_night: one step of the walk through sorted actions,
accumulating (protected set, wolf kill votes, seer reveal events).  The
Python `protected` set is modelled as an ordered duplicate-free list. -/
def walkStep (state : GameState) (acc : List String × List String × List GameEvent)
    (na : NightAction) : List String × List String × List GameEvent :=
  if na.ability == "protect" then
    (if acc.1.contains na.target_id then acc.1 else acc.1 ++ [na.target_id], acc.2.1, acc.2.2)
  else if na.ability == "kill" then
    (acc.1, acc.2.1 ++ [na.target_id], acc.2.2)
  else if na.ability == "investigate" then
    match state.get_player na.target_id with
    | some tp =>
      (acc.1, acc.2.1, acc.2.2 ++
        [GameEvent.privateReveal state.day Phase.DAWN na.player_id
          (tp.name ++ " (" ++ na.target_id ++ ") is a " ++ tp.role ++ ".")])
    | none => acc
  else acc

/-- The full walk of steps 1-2 of resolve_night. -/
def nightPipeline (reg : Registry) (state : GameState) :
    List String × List String × List GameEvent :=
  (sortNightActions (collectNightActions reg state)).foldl (walkStep state) ([], [], [])

/-- The protected set accumulated by resolve_night's walk. -/
def nightProtected (reg : Registry) (state : GameState) : List String :=
  (nightPipeline reg state).1

/-- The individual wolf kill-vote submissions accumulated by the walk. -/
def nightVotes (reg : Registry) (state : GameState) : List String :=
  (nightPipeline reg state).2.1

/-- The seer private-reveal events produced by the walk. -/
def nightReveals (reg : Registry) (state : GameState) : List GameEvent :=
  (nightPipeline reg state).2.2

/-- Keys of a Counter built from the list, in first-occurrence order. -/
def tallyKeys (l : List String) : List String :=
  l.foldl (fun acc v => if acc.contains v then acc else acc ++ [v]) []

/-- The Counter itself: each key with its vote count. -/
def buildTally (l : List String) : List (String × Nat) :=
  (tallyKeys l).map (fun k => (k, l.count k))

/-- Counter.most_common(1): the highest count among the keys. -/
def maxCount (l : List String) : Nat :=
  (tallyKeys l).foldl (fun m k => max m (l.count k)) 0

/-- The keys whose count equals the highest count, in first-occurrence order. -/
def topCandidates (l : List String) : List String :=
  (tallyKeys l).filter (fun k => l.count k == maxCount l)

/-- The wolf-consensus threshold: unanimity for at most 2 submitted votes,
strict majority (floor(N/2)+1) for 3 or more (resolver.py step 3). -/
def requiredThreshold (n : Nat) : Nat :=
  if n ≤ 2 then n else n / 2 + 1

/-- Step 3 of resolve_night: the wolves' consensus choice.  Returns the
adopted kill list: a singleton when the top vote count reaches the
threshold (the tie among top candidates broken by `pick`), else empty. -/
def wolfKillChoice (votes : List String) (pick : Nat) : List String :=
  if votes.isEmpty then []
  else if requiredThreshold votes.length ≤ maxCount votes then
    match (topCandidates votes).get? (pick % (topCandidates votes).length) with
    | some c => [c]
    | none => []
  else []

/-- Step 4 of resolve_night (first half): split the adopted kill list into
(saved, actual_kills) by cancelling protected targets and deduplicating. -/
def splitKills (kills protectedIds : List String) : List String × List String :=
  kills.foldl (fun acc t =>
    if protectedIds.contains t then (acc.1 ++ [t], acc.2)
    else if acc.2.contains t then acc
    else (acc.1, acc.2 ++ [t])) ([], [])

/-- Step 4 of resolve_night (second half): apply the actual kills to the
state, emitting an EliminationEvent for each target that is a known,
living player; unknown or already-dead targets are silently skipped. -/
def applyKills (state : GameState) (targets : List String) : GameState × List GameEvent :=
  targets.foldl (fun acc t =>
    match acc.1.get_player t with
    | some p =>
      if p.is_alive then
        (acc.1.with_player_killed t,
         acc.2 ++ [GameEvent.elimination acc.1.day Phase.DAWN t p.role "wolf_kill"])
      else acc
    | none => acc) (state, [])

/-- The saved/actual-kills split computed by resolve_night for the adopted
kill list against the protected set. -/
def nightSplit (reg : Registry) (state : GameState) (pick : Nat) : List String × List String :=
  splitKills (wolfKillChoice (nightVotes reg state) pick) (nightProtected reg state)

/-- The full event list emitted by resolve_night: the summary
NightResultEvent inserted at position 0, then the walk's reveal events,
then the elimination events from applying the actual kills. -/
def nightEvents (reg : Registry) (state : GameState) (pick : Nat) : List GameEvent :=
  GameEvent.nightResult state.day Phase.DAWN (nightSplit reg state pick).2
      (nightProtected reg state) (nightSplit reg state pick).1 ::
    (nightReveals reg state ++ (applyKills state (nightSplit reg state pick).2).2)

/-- resolver.resolve_night: resolve all night actions stored in the state,
returning the updated state and the emitted events, with the leading
NightResultEvent inserted at position 0 and all events appended to the
state's log.  `pick` models the random tie-break among tied top targets. -/
def resolve_night (reg : Registry) (state : GameState) (pick : Nat) :
    GameState × List GameEvent :=
  ((nightEvents reg state pick).foldl GameState.with_event
      (applyKills state (nightSplit reg state pick).2).1,
   nightEvents reg state pick)

/-- Living werewolf-team players (victory.py). -/
def aliveWolves (s : GameState) : List PlayerSlot :=
  s.get_alive_players.filter (fun p => p.team == "werewolf")

/-- Living village-team players (victory.py). -/
def aliveVillagers (s : GameState) : List PlayerSlot :=
  s.get_alive_players.filter (fun p => p.team == "village")

/-- victory.check_victory: a GameEndEvent if the game is over, else none.
Village wins when no wolves are alive; werewolves win when the living
wolves equal or outnumber the living villagers. -/
def check_victory (state : GameState) : Option GameEvent :=
  if (aliveWolves state).isEmpty then
    some (GameEvent.gameEnd state.day state.phase "village"
      ((state.get_players_by_team "village").map (fun p => p.player_id))
      "All werewolves have been eliminated.")
  else if (aliveVillagers state).length ≤ (aliveWolves state).length then
    some (GameEvent.gameEnd state.day state.phase "werewolf"
      ((state.get_players_by_team "werewolf").map (fun p => p.player_id))
      "Werewolves equal or outnumber the villagers.")
  else none

/-- Role/team scrubbing applied by the view to other players' entries. -/
def scrubSlot (p : PlayerSlot) : PlayerSlot :=
  { p with role := "unknown", team := "unknown", metadata := [] }

/-- GameStateView.alive_players: living players as seen by the viewer, the
viewer's own entry intact and every other scrubbed to unknown role/team. -/
def view_alive_players (state : GameState) (viewer : String) : List PlayerSlot :=
  state.get_alive_players.map (fun p => if p.player_id == viewer then p else scrubSlot p)

/-- GameStateView.all_players: id, name, is_alive triples, no role info. -/
def view_all_players (state : GameState) : List (String × String × Bool) :=
  state.players.map (fun p => (p.player_id, p.name, p.is_alive))

/-- Whether the viewer is a werewolf-team player of the state. -/
def isWolfViewer (state : GameState) (viewer : String) : Bool :=
  match state.get_player viewer with
  | some p => p.team == "werewolf"
  | none => false

/-- GameStateView.events visibility filter: private reveals only for their
target, wolf-channel speech only for wolves, everything else visible. -/
def eventVisible (state : GameState) (viewer : String) (e : GameEvent) : Bool :=
  match e with
  | GameEvent.privateReveal _ _ pid _ => pid == viewer
  | GameEvent.speech _ _ _ _ ch => if ch == "wolf" then isWolfViewer state viewer else true
  | _ => true

/-- GameStateView.events: the filtered event log for the viewer. -/
def view_events (state : GameState) (viewer : String) : List GameEvent :=
  state.events.filter (eventVisible state viewer)

/-- The (eliminated_id, tie) outcome computed by Moderator.run_vote from the
tallied non-null vote targets: unique plurality wins; a tie is resolved by
the tie_breaker policy ("no_elimination" keeps everyone, "random" picks
uniformly among the tied top candidates, anything else keeps everyone).
`pick` models the random choice among tied candidates. -/
def voteOutcome (nonNull : List String) (tie_breaker : String) (pick : Nat) :
    Option String × Bool :=
  if (buildTally nonNull).isEmpty then ((none : Option String), false)
  else if (topCandidates nonNull).length = 1 then ((topCandidates nonNull).get? 0, false)
  else
    (if tie_breaker == "no_elimination" then none
     else if tie_breaker == "random" then
       (topCandidates nonNull).get? (pick % (topCandidates nonNull).length)
     else none, true)

/-- The tally-and-result section of Moderator.run_vote, from the point where
the per-voter votes have been collected: emits one VoteEvent per voter
(including abstentions with a null target), tallies the non-null targets,
resolves plurality or tie per the tie_breaker policy, and appends the
aggregate VoteResultEvent last, everything also appended to the state. -/
def runVoteTally (state : GameState) (votes : List (String × Option String))
    (tie_breaker : String) (pick : Nat) : GameState × List GameEvent :=
  let events := votes.map (fun vt => GameEvent.vote state.day Phase.DAY_VOTE vt.1 vt.2) ++
    [GameEvent.voteResult state.day Phase.DAY_VOTE
      (buildTally (votes.filterMap (fun vt => vt.2)))
      (voteOutcome (votes.filterMap (fun vt => vt.2)) tie_breaker pick).1
      (voteOutcome (votes.filterMap (fun vt => vt.2)) tie_breaker pick).2]
  (events.foldl GameState.with_event state, events)

/-- Game._transition: switch to the new phase and append a PhaseChangeEvent
whose old_phase was read before the switch. -/
def transition (state : GameState) (new_phase : Phase) : GameState :=
  let old_phase := state.phase
  let s := state.with_phase new_phase
  s.with_event (GameEvent.phaseChange s.day new_phase old_phase new_phase)

/-- Game._end_game event bookkeeping: the phase is set to GAME_OVER first,
and only then is old_phase read from the (already updated) state, so the
appended PhaseChangeEvent records old_phase = GAME_OVER. -/
def endGame (state : GameState) (result : GameEvent) : GameState :=
  let s := state.with_phase Phase.GAME_OVER
  let s2 := s.with_event (GameEvent.phaseChange s.day Phase.GAME_OVER s.phase Phase.GAME_OVER)
  s2.with_event result

/-- BriefingBuilder._name: resolve a player id to a display name through the
id-to-name table, defaulting to the id itself. -/
def nameOf (idToName : List (String × String)) (pid : String) : String :=
  match idToName.find? (fun kv => kv.1 == pid) with
  | some kv => kv.2
  | none => pid

/-- BriefingBuilder.build_wolf_chat_briefing: the curated text shown to one
wolf during the wolf-chat sub-phase.  `shuffle` stands for the builder's
`_shuffle` (the identity function when randomize_names is off) and
`kbSummary` for the agent's `kb.summarize_for_briefing()` text. -/
def build_wolf_chat_briefing (idToName : List (String × String))
    (shuffle : List String → List String) (state : GameState) (player_id : String)
    (kbSummary : String) (allies : List String) (prior_messages : List String) : String :=
  let name := nameOf idToName player_id
  let alive := state.get_alive_players.map (fun p => nameOf idToName p.player_id)
  let alive_villagers := alive.filter (fun n => !(n == name) && !(allies.contains n))
  let lines :=
    ["=== Wolf Chat (Night " ++ toString state.day ++ ") ===",
     "You are " ++ name ++ ". This is a private channel -- only wolves can see this.",
     "Your wolf allies: " ++ String.intercalate ", " (shuffle allies),
     "",
     "Alive villager-side players: " ++
       (if alive_villagers.isEmpty then "(none)"
        else String.intercalate ", " (shuffle alive_villagers)),
     ""] ++
    (if prior_messages.isEmpty then []
     else ["=== Wolf Chat Messages ==="] ++ prior_messages.map (fun m => "  " ++ m) ++ [""]) ++
    ["Discuss strategy with your allies. Who should the pack target tonight?",
     "Use the wolf_say tool to speak, or pass_turn to stay silent.",
     ""] ++
    (if kbSummary == "" then [] else [kbSummary])
  String.intercalate "\n" lines

/-- Whether the pattern is a prefix of the character list. -/
def charListHasPrefix : List Char → List Char → Bool
  | [], _ => true
  | _ :: _, [] => false
  | p :: ps, c :: cs => p == c && charListHasPrefix ps cs

/-- Whether the pattern occurs as a contiguous sublist. -/
def charListOccurs (pat : List Char) : List Char → Bool
  | [] => pat.isEmpty
  | c :: cs => charListHasPrefix pat (c :: cs) || charListOccurs pat cs

/-- Whether `pat` occurs as a substring of `s` (the reading of "the text
contains the role/team string" used to check the information boundary). -/
def strContains (s pat : String) : Bool :=
  charListOccurs pat.data s.data

/-- Whether an event is an EliminationEvent of any kind. -/
def isElimEvent : GameEvent → Bool
  | GameEvent.elimination _ _ _ _ _ => true
  | _ => false

/-- Whether an event is an EliminationEvent with cause wolf_kill for the
given target. -/
def isWolfKillElimFor (t : String) : GameEvent → Bool
  | GameEvent.elimination _ _ pid _ cause => pid == t && cause == "wolf_kill"
  | _ => false

/-- Concrete roster used by the scenario states: two or three werewolves, a
seer, a doctor and plain villagers. -/
def pw1 : PlayerSlot := ⟨"w1", "Alpha", "werewolf", "werewolf", true, []⟩

/-- Second werewolf of the concrete roster. -/
def pw2 : PlayerSlot := ⟨"w2", "Beta", "werewolf", "werewolf", true, []⟩

/-- Third werewolf of the concrete roster. -/
def pw3 : PlayerSlot := ⟨"w3", "Gamma", "werewolf", "werewolf", true, []⟩

/-- Seer of the concrete roster. -/
def ps1 : PlayerSlot := ⟨"s1", "Sage", "seer", "village", true, []⟩

/-- Doctor of the concrete roster. -/
def pd1 : PlayerSlot := ⟨"d1", "Dian", "doctor", "village", true, []⟩

/-- Villager of the concrete roster. -/
def pv1 : PlayerSlot := ⟨"v1", "Vera", "villager", "village", true, []⟩

/-- An already-dead villager used for the dead-target scenario. -/
def pv9dead : PlayerSlot := ⟨"v9", "Dora", "villager", "village", false, []⟩

/-- Night scenario: both wolves submit kill votes for the same villager. -/
def st2same : GameState :=
  { day := 1, phase := Phase.NIGHT, players := [pw1, pw2, ps1, pd1, pv1], events := [],
    night_actions := [("w1", Action.useAbility "w1" "kill" "v1"),
                      ("w2", Action.useAbility "w2" "kill" "v1")] }

/-- Night scenario: the two wolves split their kill votes 1-1. -/
def st2diff : GameState :=
  { st2same with night_actions := [("w1", Action.useAbility "w1" "kill" "v1"),
                                   ("w2", Action.useAbility "w2" "kill" "s1")] }

/-- Night scenario: three wolves split their kill votes 2-1. -/
def st3maj : GameState :=
  { day := 1, phase := Phase.NIGHT, players := [pw1, pw2, pw3, ps1, pv1], events := [],
    night_actions := [("w1", Action.useAbility "w1" "kill" "v1"),
                      ("w2", Action.useAbility "w2" "kill" "v1"),
                      ("w3", Action.useAbility "w3" "kill" "s1")] }

/-- Night scenario: both wolves agree on a target id that matches no player. -/
def stGhost : GameState :=
  { day := 1, phase := Phase.NIGHT, players := [pw1, pw2, pv1], events := [],
    night_actions := [("w1", Action.useAbility "w1" "kill" "zz"),
                      ("w2", Action.useAbility "w2" "kill" "zz")] }

/-- Night scenario: both wolves agree on a player who is already dead. -/
def stDeadTarget : GameState :=
  { day := 1, phase := Phase.NIGHT, players := [pw1, pw2, pv1, pv9dead], events := [],
    night_actions := [("w1", Action.useAbility "w1" "kill" "v9"),
                      ("w2", Action.useAbility "w2" "kill" "v9")] }

/-- State for the wolf-chat information-boundary counterexample: two living
wolves and one living villager, empty event log. -/
def stWolfChat : GameState :=
  { day := 1, phase := Phase.NIGHT, players := [pw1, pw2, pv1], events := [],
    night_actions := [] }

/-- Display-name table for the wolf-chat counterexample. -/
def wolfChatNames : List (String × String) :=
  [("w1", "Alpha"), ("w2", "Beta"), ("v1", "Vera")]

/-- State used by the view-projection witness. -/
def wst4 : GameState :=
  { day := 2, phase := Phase.DAY_DISCUSSION, players := [pw1, pv1],
    events := [GameEvent.privateReveal 1 Phase.DAWN "w1" "peek"], night_actions := [] }

/-- A DAWN-phase state handed to _end_game in the C7 evaluation. -/
def stDawnEnd : GameState :=
  { day := 3, phase := Phase.DAWN, players := [pw1, pv1], events := [], night_actions := [] }

/-- The GameEndEvent handed to _end_game in the C7 evaluation. -/
def endResult : GameEvent :=
  GameEvent.gameEnd 3 Phase.DAWN "village" ["v1"] "All werewolves have been eliminated."

/-- Vote scenario C: five alive voters split 2-2-1. -/
def votesC : List (String × Option String) :=
  [("p1", some "A"), ("p2", some "A"), ("p3", some "B"), ("p4", some "B"), ("p5", some "C")]

/-- Bare state for the vote scenarios. -/
def stVote : GameState :=
  { day := 2, phase := Phase.DAY_VOTE, players := [], events := [], night_actions := [] }

/-- Appending events one by one never touches the players roster. -/
theorem foldl_with_event_players (l : List GameEvent) (s : GameState) :
    (l.foldl GameState.with_event s).players = s.players := by
  induction l generalizing s with
  | nil => rfl
  | cons e l ih => simpa [GameState.with_event] using ih (s.with_event e)

/-- One walk step only ever adds private-reveal events to the event slot. -/
theorem walkStep_mem_reveals (st : GameState)
    (acc : List String × List String × List GameEvent) (x : NightAction) (e : GameEvent)
    (he : e ∈ (walkStep st acc x).2.2) :
    e ∈ acc.2.2 ∨ ∃ d ph pid info, e = GameEvent.privateReveal d ph pid info := by
  unfold walkStep at he
  by_cases h1 : (x.ability == "protect") = true
  · simp only [h1, if_true] at he
    exact Or.inl he
  · simp only [h1, if_false, Bool.false_eq_true] at he
    by_cases h2 : (x.ability == "kill") = true
    · simp only [h2, if_true] at he
      exact Or.inl he
    · simp only [h2, if_false, Bool.false_eq_true] at he
      by_cases h3 : (x.ability == "investigate") = true
      · simp only [h3, if_true] at he
        cases hgp : st.get_player x.target_id with
        | none =>
          rw [hgp] at he
          exact Or.inl he
        | some tp =>
          rw [hgp] at he
          simp only [List.mem_append, List.mem_singleton] at he
          rcases he with h | h
          · exact Or.inl h
          · exact Or.inr ⟨_, _, _, _, h⟩
      · simp only [h3, if_false, Bool.false_eq_true] at he
        exact Or.inl he

/-- The whole walk only ever adds private-reveal events to the event slot. -/
theorem walk_mem_reveals (st : GameState) (l : List NightAction) :
    ∀ (acc : List String × List String × List GameEvent) (e : GameEvent),
      e ∈ (l.foldl (walkStep st) acc).2.2 →
      e ∈ acc.2.2 ∨ ∃ d ph pid info, e = GameEvent.privateReveal d ph pid info := by
  induction l with
  | nil => exact fun acc e he => Or.inl he
  | cons x l ih =>
    intro acc e he
    rcases ih (walkStep st acc x) e he with h | h
    · exact walkStep_mem_reveals st acc x e h
    · exact Or.inr h

/-- Every event produced by the seer-walk is a private reveal. -/
theorem nightReveals_shape (reg : Registry) (s : GameState) (e : GameEvent)
    (he : e ∈ nightReveals reg s) :
    ∃ d ph pid info, e = GameEvent.privateReveal d ph pid info := by
  rcases walk_mem_reveals s (sortNightActions (collectNightActions reg s)) ([], [], []) e he
    with h | h
  · simp at h
  · exact h

/-- Any predicate false on private reveals counts zero over the seer-walk. -/
theorem nightReveals_countP_zero (reg : Registry) (s : GameState) (p : GameEvent → Bool)
    (hp : ∀ d ph pid info, p (GameEvent.privateReveal d ph pid info) = false) :
    (nightReveals reg s).countP p = 0 := by
  apply List.countP_eq_zero.mpr
  intro e he
  rcases nightReveals_shape reg s e he with ⟨d, ph, pid, info, rfl⟩
  simp [hp]

/-- splitKills on the singleton adopted kill list. -/
theorem splitKills_singleton (t : String) (prot : List String) :
    splitKills [t] prot = if prot.contains t then ([t], []) else ([], [t]) := by
  by_cases h : (prot.contains t) = true <;>
    simp [splitKills, h]

/-- applyKills on a living target kills it and emits the elimination event. -/
theorem applyKills_singleton_alive (s : GameState) (t : String) (p : PlayerSlot)
    (hp : s.get_player t = some p) (halive : p.is_alive = true) :
    applyKills s [t] = (s.with_player_killed t,
      [GameEvent.elimination s.day Phase.DAWN t p.role "wolf_kill"]) := by
  simp [applyKills, hp, halive]

/-- applyKills silently skips a target that is already dead. -/
theorem applyKills_singleton_dead (s : GameState) (t : String) (p : PlayerSlot)
    (hp : s.get_player t = some p) (hdead : p.is_alive = false) :
    applyKills s [t] = (s, []) := by
  simp [applyKills, hp, hdead]

/-- applyKills silently skips a target id that matches no player. -/
theorem applyKills_singleton_none (s : GameState) (t : String)
    (hp : s.get_player t = none) :
    applyKills s [t] = (s, []) := by
  simp [applyKills, hp]

/-- applyKills does nothing on an empty kill list. -/
theorem applyKills_nil (s : GameState) : applyKills s [] = (s, []) := rfl

/-- A nonempty adopted kill list means the consensus guard held: the top
vote count reached the required threshold on a nonempty vote list. -/
theorem wolfKillChoice_threshold (votes : List String) (pick : Nat) (c : String)
    (l : List String) (h : wolfKillChoice votes pick = c :: l) :
    votes ≠ [] ∧ requiredThreshold votes.length ≤ maxCount votes := by
  unfold wolfKillChoice at h
  by_cases h1 : (votes.isEmpty) = true
  · simp [h1] at h
  · refine ⟨fun hnil => h1 (by simp [hnil]), ?_⟩
    by_cases h2 : requiredThreshold votes.length ≤ maxCount votes
    · exact h2
    · simp [h1, h2] at h

/-- Below the threshold the wolves adopt no kill target. -/
theorem wolfKillChoice_no_consensus (votes : List String) (pick : Nat)
    (h : maxCount votes < requiredThreshold votes.length) :
    wolfKillChoice votes pick = [] := by
  unfold wolfKillChoice
  by_cases h1 : (votes.isEmpty) = true
  · simp [h1]
  · simp [h1, Nat.not_le.mpr h]

/-- Membership in the deduplicated key list implies membership in the votes. -/
theorem mem_tallyKeys_aux (l : List String) :
    ∀ (acc : List String) (x : String),
      x ∈ l.foldl (fun acc v => if acc.contains v then acc else acc ++ [v]) acc →
      x ∈ acc ∨ x ∈ l := by
  induction l with
  | nil => exact fun acc x h => Or.inl h
  | cons v l ih =>
    intro acc x h
    rcases ih _ x h with h' | h'
    · dsimp only at h'
      by_cases hc : (acc.contains v) = true
      · rw [if_pos hc] at h'
        exact Or.inl h'
      · rw [if_neg hc] at h'
        rcases List.mem_append.mp h' with h'' | h''
        · exact Or.inl h''
        · exact Or.inr (by simp at h''; simp [h''])
    · exact Or.inr (List.mem_cons_of_mem v h')

/-- Every entry of the tally is its key's positive occurrence count. -/
theorem mem_buildTally (l : List String) (k : String) (c : Nat)
    (h : (k, c) ∈ buildTally l) : c = l.count k ∧ 0 < c := by
  rcases List.mem_map.mp h with ⟨k', hk', heq⟩
  cases heq
  refine ⟨rfl, List.count_pos_iff.mpr ?_⟩
  rcases mem_tallyKeys_aux l [] _ hk' with h' | h'
  · simp at h'
  · exact h'

/-- A non-viewer entry of the view has its role and team scrubbed. -/
theorem mem_view_scrubbed (s : GameState) (X : String) (q : PlayerSlot)
    (hq : q ∈ view_alive_players s X) (hne : q.player_id ≠ X) :
    q.role = "unknown" ∧ q.team = "unknown" ∧ q.metadata = [] ∧
    ∃ p, p ∈ s.get_alive_players ∧ p.player_id = q.player_id ∧ p.name = q.name ∧
      p.is_alive = q.is_alive := by
  rcases List.mem_map.mp hq with ⟨p, hp, heq⟩
  by_cases hid : (p.player_id == X) = true
  · rw [if_pos hid] at heq
    subst heq
    exact absurd (by simpa using hid) hne
  · rw [if_neg hid] at heq
    subst heq
    exact ⟨rfl, rfl, rfl, p, hp, rfl, rfl, rfl⟩

/-- C1: wolf kill consensus.  resolve_night adopts a kill target only if the
top vote count among the N submitted wolf kill votes reaches the threshold
(N itself when N is at most 2, floor(N/2)+1 when N is 3 or more); below
the threshold no kill target is adopted.  Concretely: two wolves naming
different targets produce no kill and leave every player alive, two wolves
naming the same unprotected target kill it, and with three wolves a 2-vs-1
split kills the majority target. -/
theorem C1_wolf_kill_consensus :
    (∀ (votes : List String) (pick : Nat) (c : String) (l : List String),
        wolfKillChoice votes pick = c :: l →
        (if votes.length ≤ 2 then votes.length else votes.length / 2 + 1) ≤ maxCount votes) ∧
    (∀ (votes : List String) (pick : Nat),
        maxCount votes < (if votes.length ≤ 2 then votes.length else votes.length / 2 + 1) →
        wolfKillChoice votes pick = []) ∧
    (resolve_night classicRegistry st2diff 0).2 =
      [GameEvent.nightResult 1 Phase.DAWN [] [] []] ∧
    (resolve_night classicRegistry st2diff 0).1.players = st2diff.players ∧
    (resolve_night classicRegistry st2same 0).2 =
      [GameEvent.nightResult 1 Phase.DAWN ["v1"] [] [],
       GameEvent.elimination 1 Phase.DAWN "v1" "villager" "wolf_kill"] ∧
    (resolve_night classicRegistry st3maj 0).2 =
      [GameEvent.nightResult 1 Phase.DAWN ["v1"] [] [],
       GameEvent.elimination 1 Phase.DAWN "v1" "villager" "wolf_kill"] := by
  refine ⟨?_, ?_, by decide, by decide, by decide, by decide⟩
  · intro votes pick c l h
    simpa [requiredThreshold] using (wolfKillChoice_threshold votes pick c l h).2
  · intro votes pick h
    exact wolfKillChoice_no_consensus votes pick (by simpa [requiredThreshold] using h)

/-- Witness for C1: two identical wolf votes are adopted and indeed meet the
unanimity threshold. -/
theorem C1_wolf_kill_consensus_witness :
    (if ([ "a", "a" ] : List String).length ≤ 2 then ([ "a", "a" ] : List String).length
     else ([ "a", "a" ] : List String).length / 2 + 1) ≤ maxCount ["a", "a"] :=
  C1_wolf_kill_consensus.1 ["a", "a"] 0 "a" [] (by decide)

/-- C2: victory checker.  With zero living werewolf-team players,
check_victory returns the village win whose winners are every village-team
player alive or dead; otherwise, when living wolves equal or outnumber
living villagers it returns the werewolf win with all werewolf-team
players as winners; otherwise none.  The three guard cases are pairwise
exclusive and collectively exhaustive, and a state with no players at all
yields the village win. -/
theorem C2_victory_checker (s : GameState) :
    (aliveWolves s = [] →
      check_victory s = some (GameEvent.gameEnd s.day s.phase "village"
        ((s.get_players_by_team "village").map (fun p => p.player_id))
        "All werewolves have been eliminated.")) ∧
    (aliveWolves s ≠ [] → (aliveVillagers s).length ≤ (aliveWolves s).length →
      check_victory s = some (GameEvent.gameEnd s.day s.phase "werewolf"
        ((s.get_players_by_team "werewolf").map (fun p => p.player_id))
        "Werewolves equal or outnumber the villagers.")) ∧
    (aliveWolves s ≠ [] → (aliveWolves s).length < (aliveVillagers s).length →
      check_victory s = none) ∧
    (aliveWolves s = [] ∨
      (aliveWolves s ≠ [] ∧ (aliveVillagers s).length ≤ (aliveWolves s).length) ∨
      (aliveWolves s ≠ [] ∧ (aliveWolves s).length < (aliveVillagers s).length)) ∧
    (¬ (aliveWolves s = [] ∧ aliveWolves s ≠ [])) ∧
    (¬ ((aliveVillagers s).length ≤ (aliveWolves s).length ∧
        (aliveWolves s).length < (aliveVillagers s).length)) ∧
    (s.players = [] →
      check_victory s = some (GameEvent.gameEnd s.day s.phase "village" []
        "All werewolves have been eliminated.")) := by
  refine ⟨?_, ?_, ?_, ?_, ?_, ?_, ?_⟩
  · intro h
    simp [check_victory, h]
  · intro h1 h2
    rw [check_victory, if_neg (by simp [List.isEmpty_iff, h1]), if_pos h2]
  · intro h1 h2
    rw [check_victory, if_neg (by simp [List.isEmpty_iff, h1]),
      if_neg (Nat.not_le.mpr h2)]
  · by_cases h : aliveWolves s = []
    · exact Or.inl h
    · rcases le_or_lt (aliveVillagers s).length (aliveWolves s).length with h' | h'
      · exact Or.inr (Or.inl ⟨h, h'⟩)
      · exact Or.inr (Or.inr ⟨h, h'⟩)
  · rintro ⟨h1, h2⟩
    exact h2 h1
  · rintro ⟨h1, h2⟩
    exact absurd h1 (Nat.not_le.mpr h2)
  · intro h
    simp [check_victory, aliveWolves, aliveVillagers, GameState.get_alive_players,
      GameState.get_players_by_team, h]

/-- Witness for C2: the empty state is a village win. -/
theorem C2_victory_checker_witness :
    check_victory { players := [] } =
      some (GameEvent.gameEnd 0 Phase.SETUP "village" []
        "All werewolves have been eliminated.") :=
  (C2_victory_checker { players := [] }).2.2.2.2.2.2 rfl

/-- C7 evidence (code bug): Game._transition appends a PhaseChangeEvent whose
old_phase is the state's phase immediately before the transition, but
Game._end_game overwrites the phase with GAME_OVER before reading
old_phase, so the final PhaseChangeEvent records old_phase = GAME_OVER
instead of the true prior phase: on a DAWN state it emits
old_phase = GAME_OVER even though the phase just before was DAWN. -/
theorem C7_endgame_phase_event :
    (∀ (s : GameState) (p : Phase),
      (transition s p).phase = p ∧
      (transition s p).events = s.events ++ [GameEvent.phaseChange s.day p s.phase p]) ∧
    stDawnEnd.phase = Phase.DAWN ∧
    (endGame stDawnEnd endResult).events =
      [GameEvent.phaseChange 3 Phase.GAME_OVER Phase.GAME_OVER Phase.GAME_OVER, endResult] ∧
    Phase.GAME_OVER ≠ Phase.DAWN :=
  ⟨fun _ _ => ⟨rfl, rfl⟩, rfl, by decide, by decide⟩

/-- C8: state-update frame invariant.  Every update helper keeps the players
collection's length and order and every player's id, name, role and team;
with_phase, with_day, with_event, with_night_action and
clear_night_actions leave players untouched entirely, with_player_killed
can only change is_alive flags, and each helper changes nothing beyond
its own field (events only grow by the appended event). -/
theorem C8_state_update_frame (s : GameState) (ph : Phase) (d : Nat) (pid : String)
    (a : Action) (e : GameEvent) (t : String) :
    ((s.with_phase ph).players = s.players ∧ (s.with_phase ph).events = s.events ∧
      (s.with_phase ph).night_actions = s.night_actions ∧ (s.with_phase ph).day = s.day ∧
      (s.with_phase ph).phase = ph) ∧
    ((s.with_day d).players = s.players ∧ (s.with_day d).events = s.events ∧
      (s.with_day d).night_actions = s.night_actions ∧ (s.with_day d).phase = s.phase ∧
      (s.with_day d).day = d) ∧
    ((s.with_event e).players = s.players ∧ (s.with_event e).events = s.events ++ [e] ∧
      (s.with_event e).night_actions = s.night_actions ∧ (s.with_event e).day = s.day ∧
      (s.with_event e).phase = s.phase) ∧
    ((s.with_night_action pid a).players = s.players ∧
      (s.with_night_action pid a).events = s.events ∧
      (s.with_night_action pid a).day = s.day ∧
      (s.with_night_action pid a).phase = s.phase) ∧
    ((s.clear_night_actions).players = s.players ∧
      (s.clear_night_actions).events = s.events ∧
      (s.clear_night_actions).night_actions = [] ∧
      (s.clear_night_actions).day = s.day ∧ (s.clear_night_actions).phase = s.phase) ∧
    ((s.with_player_killed t).players.length = s.players.length ∧
      (∀ i, ((s.with_player_killed t).players.get? i).map PlayerSlot.player_id =
          (s.players.get? i).map PlayerSlot.player_id ∧
        ((s.with_player_killed t).players.get? i).map PlayerSlot.name =
          (s.players.get? i).map PlayerSlot.name ∧
        ((s.with_player_killed t).players.get? i).map PlayerSlot.role =
          (s.players.get? i).map PlayerSlot.role ∧
        ((s.with_player_killed t).players.get? i).map PlayerSlot.team =
          (s.players.get? i).map PlayerSlot.team ∧
        ((s.with_player_killed t).players.get? i).map PlayerSlot.metadata =
          (s.players.get? i).map PlayerSlot.metadata) ∧
      (s.with_player_killed t).events = s.events ∧
      (s.with_player_killed t).night_actions = s.night_actions ∧
      (s.with_player_killed t).day = s.day ∧
      (s.with_player_killed t).phase = s.phase) := by
  refine ⟨⟨rfl, rfl, rfl, rfl, rfl⟩, ⟨rfl, rfl, rfl, rfl, rfl⟩, ⟨rfl, rfl, rfl, rfl, rfl⟩,
    ⟨rfl, rfl, rfl, rfl⟩, ⟨rfl, rfl, rfl, rfl, rfl⟩,
    by simp [GameState.with_player_killed], ?_, rfl, rfl, rfl, rfl⟩
  intro i
  show ((s.players.map _).get? i).map _ = _ ∧ ((s.players.map _).get? i).map _ = _ ∧
    ((s.players.map _).get? i).map _ = _ ∧ ((s.players.map _).get? i).map _ = _ ∧
    ((s.players.map _).get? i).map _ = _
  rw [List.get?_map]
  cases s.players.get? i with
  | none => simp
  | some p => by_cases h : p.player_id = t <;> simp [h]

/-- C9: determinism under a fixed tie-break seed.  resolve_night and the
vote tally are pure functions of the state, the submitted actions or
votes, and the tie-break seed, so two runs with equal inputs and equal
seeds return identical states and event lists. -/
theorem C9_determinism (reg : Registry) (s1 s2 : GameState) (p1 p2 : Nat)
    (st : GameState) (votes1 votes2 : List (String × Option String)) (tb : String)
    (hs : s1 = s2) (hp : p1 = p2) (hv : votes1 = votes2) :
    resolve_night reg s1 p1 = resolve_night reg s2 p2 ∧
    runVoteTally st votes1 tb p1 = runVoteTally st votes2 tb p2 := by
  subst hs
  subst hp
  subst hv
  exact ⟨rfl, rfl⟩

/-- Witness for C9 at a concrete scenario. -/
theorem C9_determinism_witness :
    resolve_night classicRegistry st2same 0 = resolve_night classicRegistry st2same 0 ∧
    runVoteTally stVote votesC "no_elimination" 0 =
      runVoteTally stVote votesC "no_elimination" 0 :=
  C9_determinism classicRegistry st2same st2same 0 0 stVote votesC votesC
    "no_elimination" rfl rfl rfl

/-- C3 counterexample: when both wolves agree on the target id "zz", which
matches no player, the kill target is adopted by consensus and no protect
action targets it, yet resolve_night emits zero EliminationEvents — so
the claim's "exactly one EliminationEvent with cause wolf_kill" fails as
stated for every state. -/
theorem C3_counterexample_missing_target :
    wolfKillChoice (nightVotes classicRegistry stGhost) 0 = ["zz"] ∧
    (nightProtected classicRegistry stGhost).contains "zz" = false ∧
    (resolve_night classicRegistry stGhost 0).2.countP (isWolfKillElimFor "zz") = 0 ∧
    (resolve_night classicRegistry stGhost 0).2.countP isElimEvent = 0 := by
  refine ⟨by decide, by decide, by decide, by decide⟩

/-- C3 (amended): resolve_night always emits a leading NightResultEvent,
even when nothing happened.  When a kill target is adopted by wolf
consensus and no protect action targeted it, then — provided the target
identifies a living player of the state — exactly one EliminationEvent
with cause wolf_kill is emitted for it (and it is the only elimination);
when the adopted target was protected, zero EliminationEvents are emitted
and the target appears in both the protected and saved lists of the
NightResultEvent. -/
theorem C3_night_events_postcondition (reg : Registry) (s : GameState) (pick : Nat)
    (t : String) :
    (∃ k pr sv rest, (resolve_night reg s pick).2 =
      GameEvent.nightResult s.day Phase.DAWN k pr sv :: rest) ∧
    (wolfKillChoice (nightVotes reg s) pick = [t] →
      (nightProtected reg s).contains t = false →
      (∃ p, s.get_player t = some p ∧ p.is_alive = true) →
      (resolve_night reg s pick).2.countP (isWolfKillElimFor t) = 1 ∧
      (resolve_night reg s pick).2.countP isElimEvent = 1) ∧
    (wolfKillChoice (nightVotes reg s) pick = [t] →
      (nightProtected reg s).contains t = true →
      (resolve_night reg s pick).2.countP isElimEvent = 0 ∧
      ∃ pr sv rest, (resolve_night reg s pick).2 =
        GameEvent.nightResult s.day Phase.DAWN [] pr sv :: rest ∧
        pr.contains t = true ∧ sv.contains t = true) := by
  refine ⟨⟨_, _, _, _, rfl⟩, ?_, ?_⟩
  · rintro h1 h2 ⟨p, hp, halive⟩
    have hsplit : nightSplit reg s pick = ([], [t]) := by
      rw [nightSplit, h1, splitKills_singleton, h2]
      simp
    have happ := applyKills_singleton_alive s t p hp halive
    have hz1 : (nightReveals reg s).countP (isWolfKillElimFor t) = 0 :=
      nightReveals_countP_zero reg s _ (fun _ _ _ _ => rfl)
    have hz2 : (nightReveals reg s).countP isElimEvent = 0 :=
      nightReveals_countP_zero reg s _ (fun _ _ _ _ => rfl)
    show (nightEvents reg s pick).countP _ = 1 ∧ (nightEvents reg s pick).countP _ = 1
    rw [nightEvents, hsplit]
    simp only [happ, List.countP_cons, List.countP_append, hz1, hz2]
    simp [isWolfKillElimFor, isElimEvent, List.countP_cons]
  · intro h1 h2
    have hsplit : nightSplit reg s pick = ([t], []) := by
      rw [nightSplit, h1, splitKills_singleton, h2]
      simp
    have hz2 : (nightReveals reg s).countP isElimEvent = 0 :=
      nightReveals_countP_zero reg s _ (fun _ _ _ _ => rfl)
    constructor
    · show (nightEvents reg s pick).countP _ = 0
      rw [nightEvents, hsplit]
      simp only [applyKills_nil, List.countP_cons, List.countP_append, hz2]
      simp [isElimEvent]
    · refine ⟨nightProtected reg s, [t], nightReveals reg s ++ (applyKills s []).2, ?_, h2, by simp⟩
      show nightEvents reg s pick = _
      rw [nightEvents, hsplit]

/-- Witness for C3 (amended) at the concrete two-wolves-one-target state. -/
theorem C3_night_events_postcondition_witness :
    (resolve_night classicRegistry st2same 0).2.countP (isWolfKillElimFor "v1") = 1 ∧
    (resolve_night classicRegistry st2same 0).2.countP isElimEvent = 1 :=
  (C3_night_events_postcondition classicRegistry st2same 0 "v1").2.1 (by decide) (by decide)
    ⟨pv1, by decide, rfl⟩

/-- C10: when the adopted, unprotected wolf kill target does not identify a
living player (unknown id or already dead), resolve_night emits no
EliminationEvent and leaves the players roster — in particular every
is_alive flag — unchanged, yet the target id still appears in the
NightResultEvent's kills list: the kills list reports adopted unprotected
kill targets, not necessarily players actually eliminated. -/
theorem C10_unknown_target_kills_list (reg : Registry) (s : GameState) (pick : Nat)
    (t : String) (h1 : wolfKillChoice (nightVotes reg s) pick = [t])
    (h2 : (nightProtected reg s).contains t = false)
    (h3 : s.get_player t = none ∨ ∃ p, s.get_player t = some p ∧ p.is_alive = false) :
    (resolve_night reg s pick).2.countP isElimEvent = 0 ∧
    (resolve_night reg s pick).1.players = s.players ∧
    ∃ rest, (resolve_night reg s pick).2 =
      GameEvent.nightResult s.day Phase.DAWN [t] (nightProtected reg s) [] :: rest := by
  have hsplit : nightSplit reg s pick = ([], [t]) := by
    rw [nightSplit, h1, splitKills_singleton, h2]
    simp
  have happ : applyKills s [t] = (s, []) := by
    rcases h3 with h | ⟨p, hp, hdead⟩
    · exact applyKills_singleton_none s t h
    · exact applyKills_singleton_dead s t p hp hdead
  have hz2 : (nightReveals reg s).countP isElimEvent = 0 :=
    nightReveals_countP_zero reg s _ (fun _ _ _ _ => rfl)
  refine ⟨?_, ?_, ?_⟩
  · show (nightEvents reg s pick).countP _ = 0
    rw [nightEvents, hsplit]
    simp only [happ, List.countP_cons, List.countP_append, hz2]
    simp [isElimEvent]
  · show ((nightEvents reg s pick).foldl GameState.with_event
      (applyKills s (nightSplit reg s pick).2).1).players = s.players
    rw [hsplit]
    simp only [happ, foldl_with_event_players]
  · refine ⟨nightReveals reg s ++ (applyKills s [t]).2, ?_⟩
    show nightEvents reg s pick = _
    rw [nightEvents, hsplit]

/-- Witness for C10: both wolves target the already-dead villager v9. -/
theorem C10_unknown_target_kills_list_witness :
    (resolve_night classicRegistry stDeadTarget 0).2.countP isElimEvent = 0 ∧
    (resolve_night classicRegistry stDeadTarget 0).1.players = stDeadTarget.players ∧
    ∃ rest, (resolve_night classicRegistry stDeadTarget 0).2 =
      GameEvent.nightResult stDeadTarget.day Phase.DAWN ["v9"]
        (nightProtected classicRegistry stDeadTarget) [] :: rest :=
  C10_unknown_target_kills_list classicRegistry stDeadTarget 0 "v9" (by decide) (by decide)
    (Or.inr ⟨pv9dead, by decide, rfl⟩)

/-- C4: view projection boundary.  In the view for player X, X's own living
entry is shown in full and is exactly the underlying roster entry, every
other living player's entry has role and team replaced by "unknown" and
metadata emptied (id, name and aliveness preserved), all_players holds
only (player_id, name, is_alive) triples, and the event filter includes a
PrivateRevealEvent only when addressed to X, a wolf-channel SpeechEvent
only when X's own team is werewolf, and every other event
unconditionally. -/
theorem C4_view_projection (s : GameState) (X : String) :
    (∀ p, p ∈ s.get_alive_players → p.player_id = X → p ∈ view_alive_players s X) ∧
    (∀ q, q ∈ view_alive_players s X → q.player_id = X → q ∈ s.get_alive_players) ∧
    (∀ q, q ∈ view_alive_players s X → q.player_id ≠ X →
      q.role = "unknown" ∧ q.team = "unknown" ∧ q.metadata = [] ∧
      ∃ p, p ∈ s.get_alive_players ∧ p.player_id = q.player_id ∧ p.name = q.name ∧
        p.is_alive = q.is_alive) ∧
    (view_all_players s = s.players.map (fun p => (p.player_id, p.name, p.is_alive))) ∧
    (∀ d ph pid info, GameEvent.privateReveal d ph pid info ∈ view_events s X → pid = X) ∧
    (∀ d ph pid c, GameEvent.speech d ph pid c "wolf" ∈ view_events s X →
      isWolfViewer s X = true) ∧
    (∀ e, e ∈ s.events →
      (∀ d ph pid info, e ≠ GameEvent.privateReveal d ph pid info) →
      (∀ d ph pid c, e ≠ GameEvent.speech d ph pid c "wolf") →
      e ∈ view_events s X) := by
  refine ⟨?_, ?_, ?_, rfl, ?_, ?_, ?_⟩
  · intro p hp hid
    exact List.mem_map.mpr ⟨p, hp, by simp [hid]⟩
  · intro q hq hid
    rcases List.mem_map.mp hq with ⟨p, hp, heq⟩
    by_cases hpx : (p.player_id == X) = true
    · rw [if_pos hpx] at heq
      subst heq
      exact hp
    · rw [if_neg hpx] at heq
      subst heq
      exact absurd (by simp [scrubSlot] at hid; simp [hid]) hpx
  · exact fun q hq hne => mem_view_scrubbed s X q hq hne
  · intro d ph pid info h
    simpa [eventVisible] using (List.mem_filter.mp h).2
  · intro d ph pid c h
    simpa [eventVisible] using (List.mem_filter.mp h).2
  · intro e he hne1 hne2
    refine List.mem_filter.mpr ⟨he, ?_⟩
    cases e with
    | privateReveal d ph pid info => exact absurd rfl (hne1 d ph pid info)
    | speech d ph pid c ch =>
      by_cases hch : ch = "wolf"
      · subst hch
        exact absurd rfl (hne2 d ph pid c)
      · simp [eventVisible, hch]
    | phaseChange d ph o n => rfl
    | vote d ph v t => rfl
    | voteResult d ph t e ti => rfl
    | elimination d ph p r c => rfl
    | abilityUse d ph p a t => rfl
    | nightResult d ph k pr sv => rfl
    | gameEnd d ph w ws r => rfl

/-- Witness for C4: the villager's entry as seen by the wolf is scrubbed. -/
theorem C4_view_projection_witness :
    (scrubSlot pv1).role = "unknown" ∧ (scrubSlot pv1).team = "unknown" ∧
    (scrubSlot pv1).metadata = [] ∧
    ∃ p, p ∈ wst4.get_alive_players ∧ p.player_id = (scrubSlot pv1).player_id ∧
      p.name = (scrubSlot pv1).name ∧ p.is_alive = (scrubSlot pv1).is_alive :=
  (C4_view_projection wst4 "w1").2.2.1 (scrubSlot pv1) (by decide) (by decide)

/-- C5 counterexample: the wolf-chat briefing built for werewolf w1 labels
the other living players "villager-side", so its text contains the exact
role string ("villager") and team string ("village") of the living,
never-revealed, never-eliminated villager v1 — the event log is empty, so
neither exception of the claim applies, refuting the substring-level
information-boundary law for briefing text. -/
theorem C5_counterexample_wolf_chat_leak :
    stWolfChat.get_player "v1" = some pv1 ∧ pv1.is_alive = true ∧ pv1.player_id ≠ "w1" ∧
    stWolfChat.events = [] ∧
    strContains (build_wolf_chat_briefing wolfChatNames (fun l => l) stWolfChat "w1" ""
      ["Beta"] []) pv1.role = true ∧
    strContains (build_wolf_chat_briefing wolfChatNames (fun l => l) stWolfChat "w1" ""
      ["Beta"] []) pv1.team = true := by
  refine ⟨by decide, rfl, by decide, rfl, by decide, by decide⟩

/-- C5 (amended): the information boundary holds at the View layer.  For all
players X and all living players Y other than X (whose true role and team
are not the literal scrub value "unknown"), no entry of X's
view shows Y's true role or team — every such entry carries "unknown"
instead — and the event projection for X contains a PrivateRevealEvent
only when addressed to X and a wolf-channel SpeechEvent only when X
is on the werewolf team.  The substring-level law does not extend to
briefing text: wolf briefings deliberately name wolf allies and label the
remaining living players "villager-side". -/
theorem C5_information_boundary (s : GameState) (X : String) (Y : PlayerSlot)
    (hY : Y ∈ s.players) (halive : Y.is_alive = true) (hne : Y.player_id ≠ X)
    (hrole : Y.role ≠ "unknown") (hteam : Y.team ≠ "unknown") :
    (∀ q, q ∈ view_alive_players s X → q.player_id = Y.player_id →
      q.role ≠ Y.role ∧ q.team ≠ Y.team) ∧
    (∀ d ph pid info, GameEvent.privateReveal d ph pid info ∈ view_events s X → pid = X) ∧
    (∀ d ph pid c, GameEvent.speech d ph pid c "wolf" ∈ view_events s X →
      isWolfViewer s X = true) := by
  refine ⟨?_, ?_, ?_⟩
  · intro q hq hid
    have hqne : q.player_id ≠ X := by
      rw [hid]
      exact hne
    rcases mem_view_scrubbed s X q hq hqne with ⟨hr, ht, _, _⟩
    rw [hr, ht]
    exact ⟨fun h => hrole h.symm, fun h => hteam h.symm⟩
  · intro d ph pid info h
    simpa [eventVisible] using (List.mem_filter.mp h).2
  · intro d ph pid c h
    simpa [eventVisible] using (List.mem_filter.mp h).2

/-- Witness for C5 (amended): the wolf's view of the villager shows neither
her role nor her team. -/
theorem C5_information_boundary_witness :
    (scrubSlot pv1).role ≠ pv1.role ∧ (scrubSlot pv1).team ≠ pv1.team :=
  (C5_information_boundary stWolfChat "w1" pv1 (by decide) rfl (by decide) (by decide)
    (by decide)).1 (scrubSlot pv1) (by decide) (by decide)

/-- C6: day-vote resolution.  The emitted events are exactly one VoteEvent
per collected voter — abstentions included with a null target — followed
by the single aggregate VoteResultEvent; the tally counts only non-null
targets (each entry is its key's positive occurrence count); a unique
plurality target is eliminated with tie=false; a shared top count yields
tie=true with eliminated_id null under "no_elimination" and a choice
among the tied targets under "random"; and scenario C (five voters
splitting 2-2-1 under "no_elimination") yields tie=true and no
elimination. -/
theorem C6_day_vote_resolution (s : GameState) (votes : List (String × Option String))
    (tb : String) (pick : Nat) :
    (∃ e t, (runVoteTally s votes tb pick).2 =
      votes.map (fun vt => GameEvent.vote s.day Phase.DAY_VOTE vt.1 vt.2) ++
      [GameEvent.voteResult s.day Phase.DAY_VOTE
        (buildTally (votes.filterMap (fun vt => vt.2))) e t]) ∧
    (∀ k c, (k, c) ∈ buildTally (votes.filterMap (fun vt => vt.2)) →
      c = (votes.filterMap (fun vt => vt.2)).count k ∧ 0 < c) ∧
    (∀ w, topCandidates (votes.filterMap (fun vt => vt.2)) = [w] →
      (runVoteTally s votes tb pick).2 =
        votes.map (fun vt => GameEvent.vote s.day Phase.DAY_VOTE vt.1 vt.2) ++
        [GameEvent.voteResult s.day Phase.DAY_VOTE
          (buildTally (votes.filterMap (fun vt => vt.2))) (some w) false]) ∧
    (∀ w1 w2 rest, topCandidates (votes.filterMap (fun vt => vt.2)) = w1 :: w2 :: rest →
      (tb = "no_elimination" →
        (runVoteTally s votes tb pick).2 =
          votes.map (fun vt => GameEvent.vote s.day Phase.DAY_VOTE vt.1 vt.2) ++
          [GameEvent.voteResult s.day Phase.DAY_VOTE
            (buildTally (votes.filterMap (fun vt => vt.2))) none true]) ∧
      (tb = "random" →
        ∃ w, w ∈ topCandidates (votes.filterMap (fun vt => vt.2)) ∧
          (runVoteTally s votes tb pick).2 =
            votes.map (fun vt => GameEvent.vote s.day Phase.DAY_VOTE vt.1 vt.2) ++
            [GameEvent.voteResult s.day Phase.DAY_VOTE
              (buildTally (votes.filterMap (fun vt => vt.2))) (some w) true])) ∧
    ((runVoteTally stVote votesC "no_elimination" 0).2 =
      votesC.map (fun vt => GameEvent.vote stVote.day Phase.DAY_VOTE vt.1 vt.2) ++
      [GameEvent.voteResult 2 Phase.DAY_VOTE [("A", 2), ("B", 2), ("C", 1)] none true]) := by
  refine ⟨⟨_, _, rfl⟩, fun k c h => mem_buildTally _ k c h, ?_, ?_, by decide⟩
  · intro w hw
    have hkeys : tallyKeys (votes.filterMap (fun vt => vt.2)) ≠ [] := by
      intro h0
      rw [topCandidates, h0] at hw
      simp at hw
    have hne : ¬ ((buildTally (votes.filterMap (fun vt => vt.2))).isEmpty = true) := by
      rw [buildTally]
      cases h : tallyKeys (votes.filterMap (fun vt => vt.2)) with
      | nil => exact absurd h hkeys
      | cons a l => simp
    have hout : voteOutcome (votes.filterMap (fun vt => vt.2)) tb pick = (some w, false) := by
      rw [voteOutcome, if_neg hne, hw]
      simp
    show votes.map _ ++
      [GameEvent.voteResult s.day Phase.DAY_VOTE _
        (voteOutcome (votes.filterMap (fun vt => vt.2)) tb pick).1
        (voteOutcome (votes.filterMap (fun vt => vt.2)) tb pick).2] = _
    rw [hout]
  · intro w1 w2 rest htop
    have hkeys : tallyKeys (votes.filterMap (fun vt => vt.2)) ≠ [] := by
      intro h0
      rw [topCandidates, h0] at htop
      simp at htop
    have hne : ¬ ((buildTally (votes.filterMap (fun vt => vt.2))).isEmpty = true) := by
      rw [buildTally]
      cases h : tallyKeys (votes.filterMap (fun vt => vt.2)) with
      | nil => exact absurd h hkeys
      | cons a l => simp
    have hlen : ¬ ((topCandidates (votes.filterMap (fun vt => vt.2))).length = 1) := by
      rw [htop]
      simp
    constructor
    · intro htb
      subst htb
      have hout : voteOutcome (votes.filterMap (fun vt => vt.2)) "no_elimination" pick =
          (none, true) := by
        rw [voteOutcome, if_neg hne, if_neg hlen]
        simp
      show votes.map _ ++
        [GameEvent.voteResult s.day Phase.DAY_VOTE _
          (voteOutcome (votes.filterMap (fun vt => vt.2)) "no_elimination" pick).1
          (voteOutcome (votes.filterMap (fun vt => vt.2)) "no_elimination" pick).2] = _
      rw [hout]
    · intro htb
      subst htb
      have hpos : 0 < (topCandidates (votes.filterMap (fun vt => vt.2))).length := by
        rw [htop]
        simp
      have hlt : pick % (topCandidates (votes.filterMap (fun vt => vt.2))).length <
          (topCandidates (votes.filterMap (fun vt => vt.2))).length :=
        Nat.mod_lt _ hpos
      have hout : voteOutcome (votes.filterMap (fun vt => vt.2)) "random" pick =
          ((topCandidates (votes.filterMap (fun vt => vt.2))).get? (pick %
            (topCandidates (votes.filterMap (fun vt => vt.2))).length), true) := by
        rw [voteOutcome, if_neg hne, if_neg hlen]
        simp
      refine ⟨(topCandidates (votes.filterMap (fun vt => vt.2))).get ⟨_, hlt⟩,
        List.get_mem _ _ _, ?_⟩
      show votes.map _ ++
        [GameEvent.voteResult s.day Phase.DAY_VOTE _
          (voteOutcome (votes.filterMap (fun vt => vt.2)) "random" pick).1
          (voteOutcome (votes.filterMap (fun vt => vt.2)) "random" pick).2] = _
      rw [hout, List.get?_eq_get hlt]

/-- Witness for C6: a unique plurality target is eliminated without a tie. -/
theorem C6_day_vote_resolution_witness :
    (runVoteTally stVote [("p1", some "A"), ("p2", some "A"), ("p3", some "B")]
      "no_elimination" 0).2 =
      [("p1", some "A"), ("p2", some "A"), ("p3", some "B")].map
        (fun vt => GameEvent.vote stVote.day Phase.DAY_VOTE vt.1 vt.2) ++
      [GameEvent.voteResult stVote.day Phase.DAY_VOTE
        (buildTally ([("p1", some "A"), ("p2", some "A"), ("p3", some "B")].filterMap
          (fun vt => vt.2))) (some "A") false] :=
  (C6_day_vote_resolution stVote [("p1", some "A"), ("p2", some "A"), ("p3", some "B")]
    "no_elimination" 0).2.2.1 "A" (by decide)

end Wolf
